import Mathlib

/-!
Shallow embedding of the go-temp RabbitMQ publishing client
(package rabbitmq: Client, NewClient, connect, PublishJSON,
reconnectWithBackoff, Close, LoadTLSConfig) and of the startup and
fan-out dispatch logic of package main.

External effects (dialing, channel creation, queue declaration, the
transmit call, certificate loading, JSON marshalling) are modelled by an
environment oracle; every effectful step is also recorded in an event
trace so that ordering properties (sleeps, connect attempts, transmits,
closes) can be stated and proved.
-/

set_option maxRecDepth 8000

namespace GoTemp

/-- Abstract payload value handed to PublishJSON (Go type: any). -/
abbrev Payload := Nat

/-- Encoded message bytes produced by json.Marshal. -/
abbrev Bytes := List Nat

/-- An abstract loaded certificate (tls.Certificate). -/
abbrev Cert := Nat

/-- Errors returned by the amqp channel Publish call.  errClosed models an
error for which errors.Is(err, amqp.ErrClosed) holds; any other transport
error is modelled by an abstract code. -/
inductive AmqpErr where
  | errClosed
  | other (code : Nat)
deriving DecidableEq, Repr

/-- Go error values observable from the rabbitmq package.  Wrapping with
fmt.Errorf is modelled by a dedicated constructor carrying the code of the
wrapped underlying error. -/
inductive GoError where
  | dialFailed (code : Nat)
  | channelFailed (code : Nat)
  | declareFailed (code : Nat)
  | marshal (code : Nat)
  | amqp (e : AmqpErr)
  | reconnectExhausted
  | nilDeref
  | fuelOut
  | loadCertsFailed (code : Nat)
  | readCAFailed (code : Nat)
  | appendCAFailed
deriving DecidableEq, Repr

/-- The fields of crypto/tls Config that LoadTLSConfig sets: Certificates,
RootCAs (the pool is modelled by the PEM bytes appended to it) and
MinVersion. -/
structure TLSConfig where
  certificates : List Cert
  rootCAs : Option Bytes
  minVersion : Nat
deriving DecidableEq, Repr

/-- Observable effect events, in the order they happen. -/
inductive Event where
  | dialPlain (uri : String)
  | dialTLS (uri : String) (cfg : TLSConfig)
  | openChannel
  | queueDeclare (name : String) (durable autoDelete exclusive noWait hasArgs : Bool)
  | transmit (exchange key : String) (mandatory immediate : Bool)
      (contentType : String) (body : Bytes) (ok : Bool)
  | sleep (d : Nat)
  | closeChannel (h : Nat) (discardedErr : Option Nat)
  | closeConn (h : Nat) (discardedErr : Option Nat)
deriving DecidableEq, Repr

/-- The rabbitmq.Client struct.  conn and channel are the nullable session
handles (a handle is the index of the dial that created it).  dialCount and
pubCount are the world clocks used to index the environment oracle: they
count how many dial attempts and how many transmit attempts have happened
on this client. -/
structure Client where
  conn : Option Nat
  channel : Option Nat
  queue : String
  uri : String
  tlsCfg : Option TLSConfig
  dialCount : Nat
  pubCount : Nat
deriving DecidableEq, Repr

/-- Environment oracle: the outcome of the n-th dial attempt (dialErr),
of the channel creation and queue declaration following the n-th dial
(chanErr, declErr), of the k-th transmit (pubOutcome, none meaning the
Publish call returned nil), of json.Marshal, and of the channel/connection
Close calls (whose results the Go code discards). -/
structure Env where
  marshal : Payload → Except Nat Bytes
  dialErr : Nat → Option Nat
  chanErr : Nat → Option Nat
  declErr : Nat → Option Nat
  pubOutcome : Nat → Option AmqpErr
  chanCloseRes : Nat → Option Nat
  connCloseRes : Nat → Option Nat

/-- Result of a publish-path call: Go error value, updated client state,
event trace. -/
abbrev PubResult := Except GoError Unit × Client × List Event

/-- The dial event: amqp.DialTLS when a TLS configuration is bound,
amqp.Dial otherwise. -/
def dialEventOf (uri : String) (tls : Option TLSConfig) : Event :=
  match tls with
  | some cfg => Event.dialTLS uri cfg
  | none => Event.dialPlain uri

/-- func (c *Client) connect() error.  Dials (TLS or plain), opens a
channel, declares the queue (durable true, autoDelete false, exclusive
false, noWait false, args nil); on any failure it returns the wrapped
error leaving c.conn and c.channel untouched; only on full success are
both handles overwritten (and no prior handle is closed). -/
def connect (env : Env) (st : Client) : Except GoError Unit × Client × List Event :=
  match env.dialErr st.dialCount with
  | some code =>
      (Except.error (GoError.dialFailed code),
       { st with dialCount := st.dialCount + 1 },
       [dialEventOf st.uri st.tlsCfg])
  | none =>
    match env.chanErr st.dialCount with
    | some code =>
        (Except.error (GoError.channelFailed code),
         { st with dialCount := st.dialCount + 1 },
         [dialEventOf st.uri st.tlsCfg, Event.openChannel])
    | none =>
      match env.declErr st.dialCount with
      | some code =>
          (Except.error (GoError.declareFailed code),
           { st with dialCount := st.dialCount + 1 },
           [dialEventOf st.uri st.tlsCfg, Event.openChannel,
            Event.queueDeclare st.queue true false false false false])
      | none =>
          (Except.ok (),
           { st with dialCount := st.dialCount + 1,
                     conn := some st.dialCount, channel := some st.dialCount },
           [dialEventOf st.uri st.tlsCfg, Event.openChannel,
            Event.queueDeclare st.queue true false false false false])

/-- Prepend already-produced events to the trace of a later result. -/
def prependEvs (evs : List Event) (r : PubResult) : PubResult :=
  (r.1, r.2.1, evs ++ r.2.2)

/-- The for loop of reconnectWithBackoff, parameterized by the fresh
publish call made after a successful reconnect (pub below is always
instantiated with PublishJSON on the same payload).  Each iteration sleeps
the current backoff, then calls connect; on connect success it retries
once with the fresh publish call; on connect failure it doubles the
backoff and loops; after the last iteration it returns the
reconnectExhausted error. -/
def reconnectLoopWith (pub : Client → PubResult) (env : Env)
    (backoff remaining : Nat) (st : Client) : PubResult :=
  match remaining with
  | 0 => (Except.error GoError.reconnectExhausted, st, [])
  | r + 1 =>
    match connect env st with
    | (Except.ok _, st1, evs) =>
        prependEvs (Event.sleep backoff :: evs) (pub st1)
    | (Except.error _, st1, evs) =>
        prependEvs (Event.sleep backoff :: evs)
          (reconnectLoopWith pub env (backoff * 2) r st1)

/-- func (c *Client) PublishJSON(payload any) error.  Marshals the payload
(returning the marshal error unchanged on failure), then calls
c.channel.Publish("", c.queue, false, false, Publishing with ContentType
application/json).  If the Publish error satisfies errors.Is(err,
amqp.ErrClosed) it enters reconnectWithBackoff; any other error (or nil)
is returned as is.  fuel bounds the Go call-stack recursion
PublishJSON to reconnectWithBackoff to PublishJSON; nilDeref marks the
panic that dereferencing a nil channel would be. -/
def PublishJSON (fuel : Nat) : Env → Payload → Client → PubResult :=
  match fuel with
  | 0 => fun _ _ st => (Except.error GoError.fuelOut, st, [])
  | f + 1 => fun env payload st =>
    match env.marshal payload with
    | Except.error code => (Except.error (GoError.marshal code), st, [])
    | Except.ok body =>
      match st.channel with
      | none => (Except.error GoError.nilDeref, st, [])
      | some _ =>
        match env.pubOutcome st.pubCount with
        | none =>
            (Except.ok (), { st with pubCount := st.pubCount + 1 },
             [Event.transmit "" st.queue false false "application/json" body true])
        | some AmqpErr.errClosed =>
            prependEvs
              [Event.transmit "" st.queue false false "application/json" body false]
              (reconnectLoopWith (PublishJSON f env payload) env 1 5
                { st with pubCount := st.pubCount + 1 })
        | some (AmqpErr.other code) =>
            (Except.error (GoError.amqp (AmqpErr.other code)),
             { st with pubCount := st.pubCount + 1 },
             [Event.transmit "" st.queue false false "application/json" body false])

/-- func (c *Client) reconnectWithBackoff(payload any) error:
backoff starts at one time-unit, five iterations. -/
def reconnectWithBackoff (fuel : Nat) (env : Env) (payload : Payload) (st : Client) : PubResult :=
  reconnectLoopWith (PublishJSON fuel env payload) env 1 5 st

/-- func (c *Client) Close().  Closes the channel then the connection,
each only if non-nil; both Close results are discarded (recorded in the
event only); the handles are not cleared and nothing is returned. -/
def Close (env : Env) (st : Client) : Client × List Event :=
  (st,
   (match st.channel with
    | some h => [Event.closeChannel h (env.chanCloseRes h)]
    | none => []) ++
   (match st.conn with
    | some h => [Event.closeConn h (env.connCloseRes h)]
    | none => []))

/-- func NewClient(uri, queue string, tlsCfg *tls.Config).  Builds a
disconnected client and runs connect; on connect failure the error is
returned and no client is produced. -/
def NewClient (env : Env) (uri queue : String) (tls : Option TLSConfig) :
    Except GoError Client × List Event :=
  match connect env { conn := none, channel := none, queue := queue, uri := uri,
                      tlsCfg := tls, dialCount := 0, pubCount := 0 } with
  | (Except.ok _, st, evs) => (Except.ok st, evs)
  | (Except.error e, _, evs) => (Except.error e, evs)

/-- crypto/tls VersionTLS12 (0x0303). -/
def VersionTLS12 : Nat := 771

/-- Filesystem oracle for LoadTLSConfig: the result of
tls.LoadX509KeyPair on the client certificate and key, of os.ReadFile on
the CA certificate, and whether AppendCertsFromPEM succeeds on the read
bytes. -/
structure TLSEnv where
  clientPair : Except Nat Cert
  caRead : Except Nat Bytes
  appendOk : Bytes → Bool

/-- func LoadTLSConfig(useTLS, useMTLS bool).  Returns (nil, nil) when TLS
is disabled; otherwise loads the client key pair when mTLS is enabled
(failing construction if it cannot be loaded), reads and appends the CA
certificate (failing construction on either error), and returns a config
with RootCAs set and MinVersion = VersionTLS12. -/
def LoadTLSConfig (fs : TLSEnv) (useTLS useMTLS : Bool) : Except GoError (Option TLSConfig) :=
  if !useTLS then Except.ok none
  else
    match (if useMTLS then
             match fs.clientPair with
             | Except.error code => Except.error (GoError.loadCertsFailed code)
             | Except.ok cert => Except.ok [cert]
           else (Except.ok [] : Except GoError (List Cert))) with
    | Except.error e => Except.error e
    | Except.ok certs =>
      match fs.caRead with
      | Except.error code => Except.error (GoError.readCAFailed code)
      | Except.ok caCert =>
        if fs.appendOk caCert then
          Except.ok (some { certificates := certs, rootCAs := some caCert,
                            minVersion := VersionTLS12 })
        else Except.error GoError.appendCAFailed

/-- One registered publisher of the fan-out loop in main: its name, its
environment oracle and its client state. -/
structure ClientRef where
  name : String
  env : Env
  st : Client

/-- The per-tick fan-out loop of main: for every registered client, in
registration order, call PublishJSON with the same message; a failure is
logged (the per-client error is part of the returned result) and the loop
continues with the next client. -/
def dispatchTick (fuel : Nat) (msg : Payload) : List ClientRef → List (String × PubResult)
  | [] => []
  | c :: rest => (c.name, PublishJSON fuel c.env msg c.st) :: dispatchTick fuel msg rest

/-- The client-construction section of main: for each of the local and
remote endpoints, when its URI is non-empty, run NewClient; on failure the
endpoint is skipped (a warning is logged), on success it is appended to
the registry under its name.  Returns the registry and the trace of the
construction attempts. -/
def buildClients (lenv renv : Env) (localURI remoteURI queue : String)
    (tls : Option TLSConfig) : List (String × Client) × List Event :=
  let localPart : List (String × Client) × List Event :=
    if localURI ≠ "" then
      match NewClient lenv localURI queue tls with
      | (Except.ok st, evs) => ([("local", st)], evs)
      | (Except.error _, evs) => ([], evs)
    else ([], [])
  let remotePart : List (String × Client) × List Event :=
    if remoteURI ≠ "" then
      match NewClient renv remoteURI queue tls with
      | (Except.ok st, evs) => ([("remote", st)], evs)
      | (Except.error _, evs) => ([], evs)
    else ([], [])
  (localPart.1 ++ remotePart.1, localPart.2 ++ remotePart.2)

/-- Outcome of startup: log.Fatal when no client could be registered,
otherwise the running registry. -/
inductive StartupOutcome where
  | fatal
  | running (clients : List (String × Client))
deriving DecidableEq, Repr

/-- The startup decision of main: fatal iff zero clients were registered. -/
def startup (lenv renv : Env) (localURI remoteURI queue : String)
    (tls : Option TLSConfig) : StartupOutcome × List Event :=
  if (buildClients lenv renv localURI remoteURI queue tls).1.length = 0 then
    (StartupOutcome.fatal, (buildClients lenv renv localURI remoteURI queue tls).2)
  else
    (StartupOutcome.running (buildClients lenv renv localURI remoteURI queue tls).1,
     (buildClients lenv renv localURI remoteURI queue tls).2)

/-! Trace observers. -/

/-- The duration of a sleep event. -/
def sleepDur : Event → Option Nat
  | Event.sleep d => some d
  | _ => none

/-- Whether an event is a dial (one connect attempt performs exactly one
dial). -/
def isDial : Event → Bool
  | Event.dialPlain _ => true
  | Event.dialTLS _ _ => true
  | _ => false

/-- Whether an event is a successful transmission. -/
def isSuccessfulTransmit : Event → Bool
  | Event.transmit _ _ _ _ _ _ ok => ok
  | _ => false

/-- Whether an event closes a handle. -/
def isCloseEvent : Event → Bool
  | Event.closeChannel _ _ => true
  | Event.closeConn _ _ => true
  | _ => false

/-- Whether the n-th connect attempt fails (at the dial, channel or
declare step). -/
def connectFails (env : Env) (n : Nat) : Bool :=
  (env.dialErr n).isSome || (env.chanErr n).isSome || (env.declErr n).isSome

/-- The event trace of the connect attempt indexed n (it depends only on
the uri, queue, TLS binding and the oracle). -/
def attemptEvents (env : Env) (uri queue : String) (tls : Option TLSConfig) (n : Nat) :
    List Event :=
  (connect env { conn := none, channel := none, queue := queue, uri := uri,
                 tlsCfg := tls, dialCount := n, pubCount := 0 }).2.2

/-- The event trace of r failing backoff iterations starting at backoff b
and dial clock n: each iteration sleeps then attempts to connect, and the
backoff doubles. -/
def loopEvents (env : Env) (uri queue : String) (tls : Option TLSConfig)
    (b n r : Nat) : List Event :=
  match r with
  | 0 => []
  | r + 1 =>
      Event.sleep b :: attemptEvents env uri queue tls n ++
        loopEvents env uri queue tls (b * 2) (n + 1) r

/-- The geometric backoff sequence b, 2b, 4b, ... of length r. -/
def geomList (b : Nat) : Nat → List Nat
  | 0 => []
  | r + 1 => b :: geomList (b * 2) r

/-! Concrete data used by the witnesses. -/

/-- A connected client as produced by NewClient at dial clock 0. -/
def stW : Client :=
  { conn := some 0, channel := some 0, queue := "temp",
    uri := "amqp://guest@localhost", tlsCfg := none, dialCount := 1, pubCount := 0 }

/-- Every dial fails and every transmit reports a closed channel. -/
def envAllFail : Env :=
  { marshal := fun p => Except.ok [p]
    dialErr := fun _ => some 7
    chanErr := fun _ => none
    declErr := fun _ => none
    pubOutcome := fun _ => some AmqpErr.errClosed
    chanCloseRes := fun _ => none
    connCloseRes := fun _ => none }

/-- First transmit reports a closed channel, the dial of reconnect attempt
one fails, the dial of reconnect attempt two succeeds, and the retried
transmit succeeds. -/
def envSecondTry : Env :=
  { marshal := fun p => Except.ok [p]
    dialErr := fun n => if n = 1 then some 7 else none
    chanErr := fun _ => none
    declErr := fun _ => none
    pubOutcome := fun k => if k = 0 then some AmqpErr.errClosed else none
    chanCloseRes := fun _ => none
    connCloseRes := fun _ => none }

/-- json.Marshal fails. -/
def envMarshalFail : Env :=
  { marshal := fun _ => Except.error 3
    dialErr := fun _ => none
    chanErr := fun _ => none
    declErr := fun _ => none
    pubOutcome := fun _ => none
    chanCloseRes := fun _ => none
    connCloseRes := fun _ => none }

/-- The transmit fails with a transport error that is not ErrClosed. -/
def envOtherErr : Env :=
  { marshal := fun p => Except.ok [p]
    dialErr := fun _ => none
    chanErr := fun _ => none
    declErr := fun _ => none
    pubOutcome := fun _ => some (AmqpErr.other 9)
    chanCloseRes := fun _ => none
    connCloseRes := fun _ => none }

/-- Everything succeeds. -/
def envHealthy : Env :=
  { marshal := fun p => Except.ok [p]
    dialErr := fun _ => none
    chanErr := fun _ => none
    declErr := fun _ => none
    pubOutcome := fun _ => none
    chanCloseRes := fun _ => some 4
    connCloseRes := fun _ => some 4 }

/-- A session that never connected: both handles absent. -/
def stDisconnected : Client :=
  { conn := none, channel := none, queue := "temp",
    uri := "amqp://guest@localhost", tlsCfg := none, dialCount := 0, pubCount := 0 }

/-- Certificate material where the client key pair cannot be loaded. -/
def fsBadPair : TLSEnv :=
  { clientPair := Except.error 7
    caRead := Except.ok [1, 2]
    appendOk := fun _ => true }

/-- Certificate material where everything loads. -/
def fsGood : TLSEnv :=
  { clientPair := Except.ok 5
    caRead := Except.ok [1, 2]
    appendOk := fun _ => true }

/-! Helper lemmas about connect and the backoff loop. -/

/-- A failing connect attempt returns some error, advances only the dial
clock, and produces the trace of the attempt. -/
lemma connect_fail_shape (env : Env) (st : Client)
    (hf : connectFails env st.dialCount = true) :
    ∃ e, connect env st =
      (Except.error e, { st with dialCount := st.dialCount + 1 },
       attemptEvents env st.uri st.queue st.tlsCfg st.dialCount) := by
  unfold connectFails at hf
  rcases hd : env.dialErr st.dialCount with _ | c
  · rcases hc : env.chanErr st.dialCount with _ | c
    · rcases hq : env.declErr st.dialCount with _ | c
      · rw [hd, hc, hq] at hf; simp at hf
      · exact ⟨GoError.declareFailed c, by simp [connect, attemptEvents, hd, hc, hq]⟩
    · exact ⟨GoError.channelFailed c, by simp [connect, attemptEvents, hd, hc]⟩
  · exact ⟨GoError.dialFailed c, by simp [connect, attemptEvents, hd]⟩

/-- A succeeding connect attempt replaces both handles with the fresh
handle and advances the dial clock. -/
lemma connect_ok_shape (env : Env) (st : Client)
    (hf : connectFails env st.dialCount = false) :
    connect env st =
      (Except.ok (),
       { st with dialCount := st.dialCount + 1,
                 conn := some st.dialCount, channel := some st.dialCount },
       attemptEvents env st.uri st.queue st.tlsCfg st.dialCount) := by
  unfold connectFails at hf
  rcases hd : env.dialErr st.dialCount with _ | c
  · rcases hc : env.chanErr st.dialCount with _ | c
    · rcases hq : env.declErr st.dialCount with _ | c
      · simp [connect, attemptEvents, hd, hc, hq]
      · rw [hd, hc, hq] at hf; simp at hf
    · rw [hd, hc] at hf; simp at hf
  · rw [hd] at hf; simp at hf

/-- One connect attempt sleeps nowhere. -/
lemma attemptEvents_sleeps (env : Env) (uri queue : String) (tls : Option TLSConfig) (n : Nat) :
    (attemptEvents env uri queue tls n).filterMap sleepDur = [] := by
  unfold attemptEvents connect
  rcases env.dialErr n with _ | c <;> rcases env.chanErr n with _ | c2 <;>
    rcases env.declErr n with _ | c3 <;> cases tls <;> simp [sleepDur, dialEventOf]

/-- One connect attempt dials exactly once. -/
lemma attemptEvents_dials (env : Env) (uri queue : String) (tls : Option TLSConfig) (n : Nat) :
    (attemptEvents env uri queue tls n).countP isDial = 1 := by
  unfold attemptEvents connect
  rcases env.dialErr n with _ | c <;> rcases env.chanErr n with _ | c2 <;>
    rcases env.declErr n with _ | c3 <;> cases tls <;>
    simp [isDial, dialEventOf, List.countP_cons]

/-- One connect attempt transmits nothing. -/
lemma attemptEvents_noTransmit (env : Env) (uri queue : String) (tls : Option TLSConfig) (n : Nat) :
    (attemptEvents env uri queue tls n).all (fun e => !(isSuccessfulTransmit e)) = true := by
  unfold attemptEvents connect
  rcases env.dialErr n with _ | c <;> rcases env.chanErr n with _ | c2 <;>
    rcases env.declErr n with _ | c3 <;> cases tls <;>
    simp [isSuccessfulTransmit, dialEventOf]

/-- The sleeps of r failing backoff iterations are the geometric backoff
sequence. -/
lemma loopEvents_sleeps (env : Env) (uri queue : String) (tls : Option TLSConfig) :
    ∀ (r b n : Nat), (loopEvents env uri queue tls b n r).filterMap sleepDur = geomList b r := by
  intro r
  induction r with
  | zero => intro b n; simp [loopEvents, geomList]
  | succ r ih =>
      intro b n
      simp [loopEvents, geomList, List.filterMap_append, attemptEvents_sleeps, sleepDur, ih]

/-- r failing backoff iterations dial exactly r times. -/
lemma loopEvents_dials (env : Env) (uri queue : String) (tls : Option TLSConfig) :
    ∀ (r b n : Nat), (loopEvents env uri queue tls b n r).countP isDial = r := by
  intro r
  induction r with
  | zero => intro b n; simp [loopEvents]
  | succ r ih =>
      intro b n
      simp [loopEvents, List.countP_cons, List.countP_append, attemptEvents_dials, isDial, ih,
        Nat.add_comm]

/-- r failing backoff iterations transmit nothing. -/
lemma loopEvents_noTransmit (env : Env) (uri queue : String) (tls : Option TLSConfig) :
    ∀ (r b n : Nat),
      (loopEvents env uri queue tls b n r).all (fun e => !(isSuccessfulTransmit e)) = true := by
  intro r
  induction r with
  | zero => intro b n; simp [loopEvents]
  | succ r ih =>
      intro b n
      simp only [loopEvents, List.all_cons, List.all_append]
      rw [attemptEvents_noTransmit, ih]
      rfl

/-- Sum of the geometric backoff sequence: b + 2b + ... = b(2^r - 1). -/
lemma geomList_sum : ∀ (r b : Nat), (geomList b r).sum + b = b * 2 ^ r := by
  intro r
  induction r with
  | zero => intro b; simp [geomList]
  | succ r ih =>
      intro b
      have h := ih (b * 2)
      rw [show b * 2 ^ (r + 1) = b * 2 * 2 ^ r by ring]
      simp only [geomList, List.sum_cons]
      omega

/-- If every one of the remaining iterations fails to connect, the loop
returns reconnectExhausted having advanced the dial clock by the number of
iterations, with the full backoff trace. -/
lemma loopWith_allFail (pub : Client → PubResult) (env : Env) :
    ∀ (r b : Nat) (st : Client),
      (∀ i, i < r → connectFails env (st.dialCount + i) = true) →
      reconnectLoopWith pub env b r st =
        (Except.error GoError.reconnectExhausted, { st with dialCount := st.dialCount + r },
         loopEvents env st.uri st.queue st.tlsCfg b st.dialCount r) := by
  intro r
  induction r with
  | zero => intro b st _; simp [reconnectLoopWith, loopEvents]
  | succ r ih =>
      intro b st hf
      obtain ⟨e, hce⟩ := connect_fail_shape env st (hf 0 (Nat.succ_pos r))
      have hrec := ih (b * 2) { st with dialCount := st.dialCount + 1 }
        (fun i hi => by
          have h := hf (i + 1) (by omega)
          rw [show st.dialCount + (i + 1) = st.dialCount + 1 + i by omega] at h
          exact h)
      rw [reconnectLoopWith, hce]
      simp only [prependEvs, hrec, loopEvents]
      rw [show st.dialCount + 1 + r = st.dialCount + (r + 1) by omega]

/-- If the first j iterations fail to connect and iteration j + 1
succeeds, the loop makes exactly one fresh publish call on the
reconnected state, after the backoff trace of the j failures and the
final sleep. -/
lemma loopWith_succeedAt (pub : Client → PubResult) (env : Env) :
    ∀ (j r b : Nat) (st : Client), j < r →
      (∀ i, i < j → connectFails env (st.dialCount + i) = true) →
      connectFails env (st.dialCount + j) = false →
      reconnectLoopWith pub env b r st =
        prependEvs
          (loopEvents env st.uri st.queue st.tlsCfg b st.dialCount j ++
           Event.sleep (b * 2 ^ j) ::
             attemptEvents env st.uri st.queue st.tlsCfg (st.dialCount + j))
          (pub { st with dialCount := st.dialCount + j + 1,
                         conn := some (st.dialCount + j),
                         channel := some (st.dialCount + j) }) := by
  intro j
  induction j with
  | zero =>
      intro r b st hr _ hok
      obtain ⟨r0, rfl⟩ : ∃ r0, r = r0 + 1 := ⟨r - 1, by omega⟩
      rw [reconnectLoopWith, connect_ok_shape env st hok]
      simp [prependEvs, loopEvents]
  | succ j ih =>
      intro r b st hr hf hok
      obtain ⟨r0, rfl⟩ : ∃ r0, r = r0 + 1 := ⟨r - 1, by omega⟩
      obtain ⟨e, hce⟩ := connect_fail_shape env st (hf 0 (Nat.succ_pos j))
      have hrec := ih r0 (b * 2) { st with dialCount := st.dialCount + 1 } (by omega)
        (fun i hi => by
          have h := hf (i + 1) (by omega)
          rw [show st.dialCount + (i + 1) = st.dialCount + 1 + i by omega] at h
          exact h)
        (by
          rw [show st.dialCount + 1 + j = st.dialCount + (j + 1) by omega]
          exact hok)
      rw [reconnectLoopWith, hce]
      simp only [prependEvs, hrec, loopEvents]
      rw [show st.dialCount + 1 + j = st.dialCount + (j + 1) by omega,
          show b * 2 * 2 ^ j = b * 2 ^ (j + 1) by ring]
      simp [List.append_assoc]

/-- Unfolding of a publish call that marshals, hits a closed channel and
enters the backoff loop. -/
lemma PublishJSON_closedChannel (f : Nat) (env : Env) (payload : Payload) (st : Client)
    (hh : Nat) (body : Bytes)
    (hch : st.channel = some hh) (hm : env.marshal payload = Except.ok body)
    (hp : env.pubOutcome st.pubCount = some AmqpErr.errClosed) :
    PublishJSON (f + 1) env payload st =
      prependEvs [Event.transmit "" st.queue false false "application/json" body false]
        (reconnectLoopWith (PublishJSON f env payload) env 1 5
          { st with pubCount := st.pubCount + 1 }) := by
  simp [PublishJSON, hm, hch, hp]

/-- The backoff loop preserves a present channel handle and never
dereferences a nil channel, provided the fresh publish call it may make
does so too. -/
lemma loopWith_channel_invariant (pub : Client → PubResult) (env : Env)
    (hpub : ∀ st : Client, st.channel.isSome = true →
      (pub st).1 ≠ Except.error GoError.nilDeref ∧ (pub st).2.1.channel.isSome = true) :
    ∀ (r b : Nat) (st : Client), st.channel.isSome = true →
      (reconnectLoopWith pub env b r st).1 ≠ Except.error GoError.nilDeref ∧
      (reconnectLoopWith pub env b r st).2.1.channel.isSome = true := by
  intro r
  induction r with
  | zero => intro b st hs; simp [reconnectLoopWith]; exact hs
  | succ r ih =>
      intro b st hs
      cases hcf : connectFails env st.dialCount with
      | false =>
          rw [reconnectLoopWith, connect_ok_shape env st hcf]
          have h := hpub { st with dialCount := st.dialCount + 1,
                                   conn := some st.dialCount,
                                   channel := some st.dialCount } (by simp)
          simpa [prependEvs] using h
      | true =>
          obtain ⟨e, hce⟩ := connect_fail_shape env st hcf
          rw [reconnectLoopWith, hce]
          have h := ih (b * 2) { st with dialCount := st.dialCount + 1 } (by simpa using hs)
          simpa [prependEvs] using h

/-- PublishJSON preserves a present channel handle and never dereferences
a nil channel. -/
lemma PublishJSON_channel_invariant :
    ∀ (fuel : Nat) (env : Env) (payload : Payload) (st : Client),
      st.channel.isSome = true →
      (PublishJSON fuel env payload st).1 ≠ Except.error GoError.nilDeref ∧
      (PublishJSON fuel env payload st).2.1.channel.isSome = true := by
  intro fuel
  induction fuel with
  | zero => intro env payload st hs; simp [PublishJSON]; exact hs
  | succ f ih =>
      intro env payload st hs
      obtain ⟨hh, hch⟩ := Option.isSome_iff_exists.mp hs
      rcases hm : env.marshal payload with code | body
      · simp [PublishJSON, hm]; exact hs
      · rcases hp : env.pubOutcome st.pubCount with _ | e
        · simp [PublishJSON, hm, hch, hp]
        · cases e with
          | errClosed =>
              rw [PublishJSON_closedChannel f env payload st hh body hch hm hp]
              have h := loopWith_channel_invariant (PublishJSON f env payload) env
                (fun st1 hs1 => ih env payload st1 hs1) 5 1
                { st with pubCount := st.pubCount + 1 } (by simpa using hs)
              simpa [prependEvs] using h
          | other code => simp [PublishJSON, hm, hch, hp]

/-! Claim theorems. -/

/-- C3: for a payload that cannot be serialized, PublishJSON fails
immediately with the serialization error: the state is unchanged and the
trace is empty, so no transmission is attempted, no reconnect attempt is
made and no sleep occurs. -/
theorem publish_serializationError (f : Nat) (env : Env) (payload : Payload)
    (st : Client) (code : Nat) (hm : env.marshal payload = Except.error code) :
    PublishJSON (f + 1) env payload st = (Except.error (GoError.marshal code), st, []) := by
  simp [PublishJSON, hm]

/-- Witness for C3 at a concrete failing marshal. -/
theorem publish_serializationError_witness :
    PublishJSON 1 envMarshalFail 0 stW = (Except.error (GoError.marshal 3), stW, []) :=
  publish_serializationError 0 envMarshalFail 0 stW 3 rfl

/-- C4: a transmission failure whose error is not ErrClosed is returned
to the caller as is; the trace holds exactly the one failed transmit, so
no connect attempt and no sleep happen. -/
theorem publish_nonClosedError (f : Nat) (env : Env) (payload : Payload) (st : Client)
    (hh : Nat) (body : Bytes) (code : Nat)
    (hch : st.channel = some hh) (hm : env.marshal payload = Except.ok body)
    (hp : env.pubOutcome st.pubCount = some (AmqpErr.other code)) :
    PublishJSON (f + 1) env payload st =
      (Except.error (GoError.amqp (AmqpErr.other code)),
       { st with pubCount := st.pubCount + 1 },
       [Event.transmit "" st.queue false false "application/json" body false]) ∧
    (PublishJSON (f + 1) env payload st).2.2.countP isDial = 0 ∧
    (PublishJSON (f + 1) env payload st).2.2.filterMap sleepDur = [] := by
  have h : PublishJSON (f + 1) env payload st =
      (Except.error (GoError.amqp (AmqpErr.other code)),
       { st with pubCount := st.pubCount + 1 },
       [Event.transmit "" st.queue false false "application/json" body false]) := by
    simp [PublishJSON, hm, hch, hp]
  refine ⟨h, ?_, ?_⟩ <;> rw [h] <;> simp [isDial, sleepDur]

/-- Witness for C4 at a concrete non-closed transport error. -/
theorem publish_nonClosedError_witness :
    PublishJSON 1 envOtherErr 0 stW =
      (Except.error (GoError.amqp (AmqpErr.other 9)),
       { stW with pubCount := stW.pubCount + 1 },
       [Event.transmit "" stW.queue false false "application/json" [0] false]) :=
  (publish_nonClosedError 0 envOtherErr 0 stW 0 [0] 9 rfl rfl rfl).1

/-- C6: connect dials (with TLS exactly when a TLS configuration is
bound), then opens a channel, then declares the queue durable,
non-auto-delete, non-exclusive, without extra arguments; each stage
failure yields the corresponding wrapped error; on success both handles
are replaced with the fresh ones; and no close event ever appears in its
trace (prior handles are not closed). -/
theorem connect_contract (env : Env) (st : Client) :
    (∀ code, env.dialErr st.dialCount = some code →
       connect env st =
         (Except.error (GoError.dialFailed code), { st with dialCount := st.dialCount + 1 },
          [dialEventOf st.uri st.tlsCfg])) ∧
    (∀ code, env.dialErr st.dialCount = none → env.chanErr st.dialCount = some code →
       connect env st =
         (Except.error (GoError.channelFailed code), { st with dialCount := st.dialCount + 1 },
          [dialEventOf st.uri st.tlsCfg, Event.openChannel])) ∧
    (∀ code, env.dialErr st.dialCount = none → env.chanErr st.dialCount = none →
        env.declErr st.dialCount = some code →
       connect env st =
         (Except.error (GoError.declareFailed code), { st with dialCount := st.dialCount + 1 },
          [dialEventOf st.uri st.tlsCfg, Event.openChannel,
           Event.queueDeclare st.queue true false false false false])) ∧
    (env.dialErr st.dialCount = none → env.chanErr st.dialCount = none →
        env.declErr st.dialCount = none →
       connect env st =
         (Except.ok (),
          { st with dialCount := st.dialCount + 1,
                    conn := some st.dialCount, channel := some st.dialCount },
          [dialEventOf st.uri st.tlsCfg, Event.openChannel,
           Event.queueDeclare st.queue true false false false false])) ∧
    (st.tlsCfg = none → dialEventOf st.uri st.tlsCfg = Event.dialPlain st.uri) ∧
    (∀ cfg, st.tlsCfg = some cfg → dialEventOf st.uri st.tlsCfg = Event.dialTLS st.uri cfg) ∧
    ((connect env st).2.2.all (fun e => !(isCloseEvent e)) = true) := by
  refine ⟨?_, ?_, ?_, ?_, ?_, ?_, ?_⟩
  · intro code hd; simp [connect, hd]
  · intro code hd hc; simp [connect, hd, hc]
  · intro code hd hc hq; simp [connect, hd, hc, hq]
  · intro hd hc hq; simp [connect, hd, hc, hq]
  · intro h0; simp [dialEventOf, h0]
  · intro cfg hcfg; simp [dialEventOf, hcfg]
  · rcases hd : env.dialErr st.dialCount with _ | c <;>
      rcases hc : env.chanErr st.dialCount with _ | c2 <;>
      rcases hq : env.declErr st.dialCount with _ | c3 <;>
      cases htls : st.tlsCfg <;>
      simp [connect, isCloseEvent, dialEventOf, hd, hc, hq, htls]

/-- Witness for C6 at a concrete fully-successful connect. -/
theorem connect_contract_witness :
    connect envHealthy stDisconnected =
      (Except.ok (),
       { stDisconnected with dialCount := stDisconnected.dialCount + 1,
                             conn := some stDisconnected.dialCount,
                             channel := some stDisconnected.dialCount },
       [dialEventOf stDisconnected.uri stDisconnected.tlsCfg, Event.openChannel,
        Event.queueDeclare stDisconnected.queue true false false false false]) :=
  (connect_contract envHealthy stDisconnected).2.2.2.1 rfl rfl rfl

/-- C9: Close leaves the state untouched (and so raises nothing), first
releases the channel and then the connection, each only when present; its
outcome is independent of the release results (failures are swallowed);
repeating it behaves identically; and on a never-connected session it
releases nothing. -/
theorem Close_contract (env env2 : Env) (st : Client) :
    (Close env st).1 = st ∧
    (Close env st).2 =
      (match st.channel with
       | some h => [Event.closeChannel h (env.chanCloseRes h)]
       | none => []) ++
      (match st.conn with
       | some h => [Event.closeConn h (env.connCloseRes h)]
       | none => []) ∧
    (Close env2 st).1 = (Close env st).1 ∧
    Close env (Close env st).1 = Close env st ∧
    (st.channel = none → st.conn = none → (Close env st).2 = []) := by
  refine ⟨rfl, rfl, rfl, rfl, fun h1 h2 => by simp [Close, h1, h2]⟩

/-- Witness for C9: closing a never-connected session releases nothing. -/
theorem Close_contract_witness : (Close envHealthy stDisconnected).2 = [] :=
  (Close_contract envHealthy envAllFail stDisconnected).2.2.2.2 rfl rfl

/-- C5: when mutual auth is requested in an enabled configuration, an
unloadable client identity fails construction; when security is enabled,
an unreadable or unappendable trust anchor fails construction; and every
successfully constructed enabled configuration carries the TLS 1.2
minimum version floor. -/
theorem LoadTLSConfig_invariants (fs : TLSEnv) (useTLS useMTLS : Bool) :
    (∀ code, useTLS = true → useMTLS = true → fs.clientPair = Except.error code →
       LoadTLSConfig fs useTLS useMTLS = Except.error (GoError.loadCertsFailed code)) ∧
    (∀ code, useTLS = true → fs.caRead = Except.error code →
       ∃ e, LoadTLSConfig fs useTLS useMTLS = Except.error e) ∧
    (∀ b, useTLS = true → fs.caRead = Except.ok b → fs.appendOk b = false →
       ∃ e, LoadTLSConfig fs useTLS useMTLS = Except.error e) ∧
    (∀ cfg, LoadTLSConfig fs useTLS useMTLS = Except.ok (some cfg) →
       cfg.minVersion = VersionTLS12) := by
  refine ⟨?_, ?_, ?_, ?_⟩
  · intro code hT hM hpair
    subst hT; subst hM
    simp [LoadTLSConfig, hpair]
  · intro code hT hca
    subst hT
    cases hM : useMTLS
    · exact ⟨GoError.readCAFailed code, by simp [LoadTLSConfig, hca]⟩
    · rcases hcp : fs.clientPair with cc | cc
      · exact ⟨GoError.loadCertsFailed cc, by simp [LoadTLSConfig, hcp]⟩
      · exact ⟨GoError.readCAFailed code, by simp [LoadTLSConfig, hcp, hca]⟩
  · intro b hT hca hap
    subst hT
    cases hM : useMTLS
    · exact ⟨GoError.appendCAFailed, by simp [LoadTLSConfig, hca, hap]⟩
    · rcases hcp : fs.clientPair with cc | cc
      · exact ⟨GoError.loadCertsFailed cc, by simp [LoadTLSConfig, hcp]⟩
      · exact ⟨GoError.appendCAFailed, by simp [LoadTLSConfig, hcp, hca, hap]⟩
  · intro cfg hok
    cases hT : useTLS
    · rw [hT] at hok; simp [LoadTLSConfig] at hok
    · rw [hT] at hok
      cases hM : useMTLS <;> rw [hM] at hok
      · rcases hca : fs.caRead with cc | bb
        · simp [LoadTLSConfig, hca] at hok
        · by_cases hap : fs.appendOk bb = true
          · simp [LoadTLSConfig, hca, hap] at hok
            rw [← hok]
          · simp [LoadTLSConfig, hca, Bool.eq_false_iff.mpr hap] at hok
      · rcases hcp : fs.clientPair with cc | cc
        · simp [LoadTLSConfig, hcp] at hok
        · rcases hca : fs.caRead with cc2 | bb
          · simp [LoadTLSConfig, hcp, hca] at hok
          · by_cases hap : fs.appendOk bb = true
            · simp [LoadTLSConfig, hcp, hca, hap] at hok
              rw [← hok]
            · simp [LoadTLSConfig, hcp, hca, Bool.eq_false_iff.mpr hap] at hok

/-- Witness for C5: an unloadable client key pair fails construction. -/
theorem LoadTLSConfig_invariants_witness :
    LoadTLSConfig fsBadPair true true = Except.error (GoError.loadCertsFailed 7) :=
  (LoadTLSConfig_invariants fsBadPair true true).1 7 rfl rfl rfl

/-- C1: when a publish hits a closed channel and all 5 reconnect attempts
fail, PublishJSON holds exactly 5 connect attempts, sleeps of 1, 2, 4, 8,
16 each before its attempt, fails with the reconnect-exhausted error, and
the trace contains no successful transmission (the message is dropped:
the final state stores nothing). -/
theorem publish_retriesExhausted (f : Nat) (env : Env) (payload : Payload) (st : Client)
    (hh : Nat) (body : Bytes)
    (hch : st.channel = some hh)
    (hm : env.marshal payload = Except.ok body)
    (hp : env.pubOutcome st.pubCount = some AmqpErr.errClosed)
    (hfail : ∀ i, i < 5 → connectFails env (st.dialCount + i) = true) :
    PublishJSON (f + 1) env payload st =
      (Except.error GoError.reconnectExhausted,
       { st with pubCount := st.pubCount + 1, dialCount := st.dialCount + 5 },
       Event.transmit "" st.queue false false "application/json" body false ::
         loopEvents env st.uri st.queue st.tlsCfg 1 st.dialCount 5) ∧
    (PublishJSON (f + 1) env payload st).2.2.filterMap sleepDur = [1, 2, 4, 8, 16] ∧
    (PublishJSON (f + 1) env payload st).2.2.countP isDial = 5 ∧
    (PublishJSON (f + 1) env payload st).2.2.all (fun e => !(isSuccessfulTransmit e)) = true := by
  have key : PublishJSON (f + 1) env payload st =
      (Except.error GoError.reconnectExhausted,
       { st with pubCount := st.pubCount + 1, dialCount := st.dialCount + 5 },
       Event.transmit "" st.queue false false "application/json" body false ::
         loopEvents env st.uri st.queue st.tlsCfg 1 st.dialCount 5) := by
    rw [PublishJSON_closedChannel f env payload st hh body hch hm hp,
        loopWith_allFail (PublishJSON f env payload) env 5 1
          { st with pubCount := st.pubCount + 1 } hfail]
    simp [prependEvs]
  refine ⟨key, ?_, ?_, ?_⟩ <;> rw [key]
  · rw [List.filterMap_cons, loopEvents_sleeps]
    simp only [sleepDur]
    decide
  · rw [List.countP_cons, loopEvents_dials]
    simp [isDial]
  · rw [List.all_cons, loopEvents_noTransmit]
    rfl

/-- Witness for C1 at a concrete environment where every dial fails. -/
theorem publish_retriesExhausted_witness :
    (PublishJSON 1 envAllFail 0 stW).1 = Except.error GoError.reconnectExhausted ∧
    (PublishJSON 1 envAllFail 0 stW).2.2.filterMap sleepDur = [1, 2, 4, 8, 16] := by
  have h := publish_retriesExhausted 0 envAllFail 0 stW 0 [0] rfl rfl rfl (by decide)
  exact ⟨by rw [h.1], h.2.1⟩

/-- C2: when a publish hits a closed channel and reconnect attempt j + 1
(1 le k = j + 1 le 5) is the first to succeed, the result is exactly that
of one fresh PublishJSON call on the reconnected state (a retransmission
that may itself recurse), placed after a trace prefix holding the j
failed attempts and the final sleep; the sleeps in that prefix sum to
2 ^ (j + 1) - 1 = 1 + 2 + ... + 2 ^ j and it holds j + 1 connect
attempts. -/
theorem publish_reconnectRetransmitsOnce (f : Nat) (env : Env) (payload : Payload)
    (st : Client) (hh : Nat) (body : Bytes) (j : Nat)
    (hch : st.channel = some hh)
    (hm : env.marshal payload = Except.ok body)
    (hp : env.pubOutcome st.pubCount = some AmqpErr.errClosed)
    (hj : j < 5)
    (hfail : ∀ i, i < j → connectFails env (st.dialCount + i) = true)
    (hok : connectFails env (st.dialCount + j) = false) :
    PublishJSON (f + 1) env payload st =
      prependEvs
        (Event.transmit "" st.queue false false "application/json" body false ::
          (loopEvents env st.uri st.queue st.tlsCfg 1 st.dialCount j ++
           Event.sleep (2 ^ j) ::
             attemptEvents env st.uri st.queue st.tlsCfg (st.dialCount + j)))
        (PublishJSON f env payload
          { st with pubCount := st.pubCount + 1, dialCount := st.dialCount + j + 1,
                    conn := some (st.dialCount + j), channel := some (st.dialCount + j) }) ∧
    ((loopEvents env st.uri st.queue st.tlsCfg 1 st.dialCount j ++
        Event.sleep (2 ^ j) ::
          attemptEvents env st.uri st.queue st.tlsCfg (st.dialCount + j)).filterMap
        sleepDur).sum + 1 = 2 ^ (j + 1) ∧
    (loopEvents env st.uri st.queue st.tlsCfg 1 st.dialCount j ++
      Event.sleep (2 ^ j) ::
        attemptEvents env st.uri st.queue st.tlsCfg (st.dialCount + j)).countP
      isDial = j + 1 := by
  refine ⟨?_, ?_, ?_⟩
  · rw [PublishJSON_closedChannel f env payload st hh body hch hm hp,
        loopWith_succeedAt (PublishJSON f env payload) env j 5 1
          { st with pubCount := st.pubCount + 1 } hj hfail hok]
    simp [prependEvs, one_mul]
  · rw [List.filterMap_append, loopEvents_sleeps, List.filterMap_cons]
    have hg := geomList_sum j 1
    rw [one_mul] at hg
    rw [attemptEvents_sleeps]
    simp only [sleepDur, List.sum_append, List.sum_cons, List.sum_nil]
    rw [pow_succ]
    omega
  · rw [List.countP_append, loopEvents_dials, List.countP_cons, attemptEvents_dials]
    simp [isDial]

/-- Witness for C2: the second reconnect attempt succeeds after sleeping
1 + 2 time-units, and the message is retransmitted by one fresh publish
call. -/
theorem publish_reconnectRetransmitsOnce_witness :
    PublishJSON 2 envSecondTry 0 stW =
      prependEvs
        (Event.transmit "" stW.queue false false "application/json" [0] false ::
          (loopEvents envSecondTry stW.uri stW.queue stW.tlsCfg 1 stW.dialCount 1 ++
           Event.sleep (2 ^ 1) ::
             attemptEvents envSecondTry stW.uri stW.queue stW.tlsCfg (stW.dialCount + 1)))
        (PublishJSON 1 envSecondTry 0
          { stW with pubCount := stW.pubCount + 1, dialCount := stW.dialCount + 1 + 1,
                     conn := some (stW.dialCount + 1), channel := some (stW.dialCount + 1) }) :=
  (publish_reconnectRetransmitsOnce 1 envSecondTry 0 stW 0 [0] 1 rfl rfl rfl
    (by omega) (by decide) (by decide)).1

/-- C7: on a tick the fan-out loop calls PublishJSON with the same message
on every registered publisher in registration order, and each result
depends only on that publisher, so a failure of any one of them never
prevents the dispatch to the rest. -/
theorem dispatchTick_isolation (fuel : Nat) (msg : Payload) :
    (∀ clients : List ClientRef,
       dispatchTick fuel msg clients =
         clients.map fun c => (c.name, PublishJSON fuel c.env msg c.st)) ∧
    (∀ (a b : List ClientRef) (c : ClientRef),
       dispatchTick fuel msg (a ++ c :: b) =
         dispatchTick fuel msg a ++
           (c.name, PublishJSON fuel c.env msg c.st) :: dispatchTick fuel msg b) := by
  have hmap : ∀ clients : List ClientRef,
      dispatchTick fuel msg clients =
        clients.map fun c => (c.name, PublishJSON fuel c.env msg c.st) := by
    intro clients
    induction clients with
    | nil => rfl
    | cons c rest ih => simp [dispatchTick, ih]
  exact ⟨hmap, fun a b c => by simp [hmap]⟩

/-- C8: a publisher is registered under "local" (resp. "remote") exactly
when its URI is non-empty and its construction succeeds; a construction
attempt happens exactly for the endpoints with a non-empty URI (a failed
one is skipped and the other endpoint is still tried); startup is fatal
iff zero publishers were registered, and otherwise runs with the
non-empty registry. -/
theorem startup_registration (lenv renv : Env) (localURI remoteURI queue : String)
    (tls : Option TLSConfig) :
    (∀ st, ("local", st) ∈ (buildClients lenv renv localURI remoteURI queue tls).1 ↔
       (localURI ≠ "" ∧ (NewClient lenv localURI queue tls).1 = Except.ok st)) ∧
    (∀ st, ("remote", st) ∈ (buildClients lenv renv localURI remoteURI queue tls).1 ↔
       (remoteURI ≠ "" ∧ (NewClient renv remoteURI queue tls).1 = Except.ok st)) ∧
    (∀ nm st, (nm, st) ∈ (buildClients lenv renv localURI remoteURI queue tls).1 →
       nm = "local" ∨ nm = "remote") ∧
    ((buildClients lenv renv localURI remoteURI queue tls).2 =
       (if localURI ≠ "" then (NewClient lenv localURI queue tls).2 else []) ++
       (if remoteURI ≠ "" then (NewClient renv remoteURI queue tls).2 else [])) ∧
    ((startup lenv renv localURI remoteURI queue tls).1 = StartupOutcome.fatal ↔
       (buildClients lenv renv localURI remoteURI queue tls).1 = []) ∧
    (∀ cs, (startup lenv renv localURI remoteURI queue tls).1 = StartupOutcome.running cs →
       cs = (buildClients lenv renv localURI remoteURI queue tls).1 ∧ cs ≠ []) := by
  have hparts : buildClients lenv renv localURI remoteURI queue tls =
      ((if localURI ≠ "" then
          match NewClient lenv localURI queue tls with
          | (Except.ok st, _) => [("local", st)]
          | (Except.error _, _) => []
        else []) ++
       (if remoteURI ≠ "" then
          match NewClient renv remoteURI queue tls with
          | (Except.ok st, _) => [("remote", st)]
          | (Except.error _, _) => []
        else []),
       (if localURI ≠ "" then (NewClient lenv localURI queue tls).2 else []) ++
       (if remoteURI ≠ "" then (NewClient renv remoteURI queue tls).2 else [])) := by
    unfold buildClients
    by_cases hl : localURI = "" <;> by_cases hr : remoteURI = "" <;>
      rcases hNl : NewClient lenv localURI queue tls with ⟨el | sl, evl⟩ <;>
      rcases hNr : NewClient renv remoteURI queue tls with ⟨er | sr, evr⟩ <;>
      simp [hl, hr, hNl, hNr]
  have hlr : ("local" : String) ≠ "remote" := by decide
  refine ⟨?_, ?_, ?_, ?_, ?_, ?_⟩
  · intro st
    rw [hparts]
    by_cases hl : localURI = "" <;> by_cases hr : remoteURI = "" <;>
      rcases hNl : NewClient lenv localURI queue tls with ⟨el | sl, evl⟩ <;>
      rcases hNr : NewClient renv remoteURI queue tls with ⟨er | sr, evr⟩ <;>
      simp [hl, hr, hNl, hNr, hlr, eq_comm]
  · intro st
    rw [hparts]
    by_cases hl : localURI = "" <;> by_cases hr : remoteURI = "" <;>
      rcases hNl : NewClient lenv localURI queue tls with ⟨el | sl, evl⟩ <;>
      rcases hNr : NewClient renv remoteURI queue tls with ⟨er | sr, evr⟩ <;>
      simp [hl, hr, hNl, hNr, hlr.symm, eq_comm]
  · intro nm st hmem
    rw [hparts] at hmem
    rcases List.mem_append.mp hmem with h | h
    · left
      by_cases hl : localURI = ""
      · simp [hl] at h
      · rcases hNl : NewClient lenv localURI queue tls with ⟨el | sl, evl⟩ <;>
          simp [hl, hNl] at h
        exact h.1
    · right
      by_cases hr : remoteURI = ""
      · simp [hr] at h
      · rcases hNr : NewClient renv remoteURI queue tls with ⟨er | sr, evr⟩ <;>
          simp [hr, hNr] at h
        exact h.1
  · rw [hparts]
  · constructor
    · intro hfat
      unfold startup at hfat
      by_cases hz : (buildClients lenv renv localURI remoteURI queue tls).1.length = 0
      · exact List.length_eq_zero.mp hz
      · rw [if_neg hz] at hfat
        simp at hfat
    · intro hnil
      unfold startup
      rw [if_pos (by rw [hnil]; rfl)]
  · intro cs hrun
    unfold startup at hrun
    by_cases hz : (buildClients lenv renv localURI remoteURI queue tls).1.length = 0
    · rw [if_pos hz] at hrun
      simp at hrun
    · rw [if_neg hz] at hrun
      simp only [] at hrun
      injection hrun with h
      subst h
      exact ⟨rfl, fun hnil => hz (by rw [hnil]; rfl)⟩

/-- Witness for C8: with an empty local URI and a remote endpoint that
fails to connect, startup is fatal. -/
theorem startup_registration_witness :
    (startup envHealthy envAllFail "" "amqp://remote" "temp" none).1 = StartupOutcome.fatal :=
  (startup_registration envHealthy envAllFail "" "amqp://remote" "temp" none).2.2.2.2.1.mpr
    (by simp [buildClients, NewClient, connect, envAllFail])

/-- C10: a client obtained from a successful NewClient has both handles
present; connect leaves the handles untouched on any failure and installs
the fresh ones on success; Close never clears the state; and a publish on
a client whose channel handle is present never dereferences a nil channel
and keeps the handle present. -/
theorem client_channelNeverNil :
    (∀ (env : Env) (uri queue : String) (tls : Option TLSConfig) (st : Client)
        (evs : List Event),
       NewClient env uri queue tls = (Except.ok st, evs) →
       st.channel.isSome = true ∧ st.conn.isSome = true) ∧
    (∀ (env : Env) (st : Client),
       ((connect env st).1 = Except.ok () →
          (connect env st).2.1.channel = some st.dialCount ∧
          (connect env st).2.1.conn = some st.dialCount) ∧
       (∀ e, (connect env st).1 = Except.error e →
          (connect env st).2.1.channel = st.channel ∧
          (connect env st).2.1.conn = st.conn)) ∧
    (∀ (env : Env) (st : Client), (Close env st).1 = st) ∧
    (∀ (fuel : Nat) (env : Env) (payload : Payload) (st : Client),
       st.channel.isSome = true →
       (PublishJSON fuel env payload st).1 ≠ Except.error GoError.nilDeref ∧
       (PublishJSON fuel env payload st).2.1.channel.isSome = true) := by
  refine ⟨?_, ?_, fun env st => rfl, PublishJSON_channel_invariant⟩
  · intro env uri queue tls st evs hnc
    unfold NewClient at hnc
    cases hcf : connectFails env
        (Client.dialCount { conn := none, channel := none, queue := queue, uri := uri,
                            tlsCfg := tls, dialCount := 0, pubCount := 0 }) with
    | true =>
        obtain ⟨e, hce⟩ := connect_fail_shape env _ hcf
        rw [hce] at hnc
        simp at hnc
    | false =>
        rw [connect_ok_shape env _ hcf] at hnc
        simp at hnc
        rw [← hnc.1]
        exact ⟨rfl, rfl⟩
  · intro env st
    constructor
    · intro hok
      cases hcf : connectFails env st.dialCount with
      | true =>
          obtain ⟨e, hce⟩ := connect_fail_shape env st hcf
          rw [hce] at hok
          simp at hok
      | false =>
          rw [connect_ok_shape env st hcf]
          exact ⟨rfl, rfl⟩
    · intro e he
      cases hcf : connectFails env st.dialCount with
      | true =>
          obtain ⟨e2, hce⟩ := connect_fail_shape env st hcf
          rw [hce]
          exact ⟨rfl, rfl⟩
      | false =>
          rw [connect_ok_shape env st hcf] at he
          simp at he

/-- Witness for C10: a publish on a connected client never hits the nil
channel and keeps the handle present. -/
theorem client_channelNeverNil_witness :
    (PublishJSON 1 envHealthy 0 stW).1 ≠ Except.error GoError.nilDeref ∧
    (PublishJSON 1 envHealthy 0 stW).2.1.channel.isSome = true :=
  client_channelNeverNil.2.2.2 1 envHealthy 0 stW rfl

end GoTemp
